import Mathlib

/-!
Verification development for the TRM modernization prototype
(`config.py`, `risk_assessment.py`, `classification.py`).

The Python code is shallowly embedded: pandas rows become structures whose
fields model the columns the embedded function actually reads (an outer
`Option` models a column that may be absent from the row, an inner `Option`
models a null/NaN cell), Python string operations are re-implemented over
`List Char`, and the external OpenAI call of `llm_classify` is replaced by
an explicit outcome value (missing credential / raised failure / returned
response string).
-/

namespace TrmApp

/-! ### Python string primitives (modelled over `List Char`) -/

/-- Python whitespace characters stripped by `str.strip()` (ASCII range). -/
def pyIsSpace (c : Char) : Bool :=
  c == ' ' || c == '\t' || c == '\n' || c == '\r' || c == '\x0b' || c == '\x0c'

/-- `str.lower()` (ASCII; the data in this application is ASCII). -/
def pyLower (s : String) : String :=
  String.mk (s.toList.map Char.toLower)

/-- Core of `str.strip()`: drop leading and trailing whitespace. -/
def stripList (l : List Char) : List Char :=
  ((l.dropWhile pyIsSpace).reverse.dropWhile pyIsSpace).reverse

/-- `str.strip()`. -/
def pyStrip (s : String) : String :=
  String.mk (stripList s.toList)

/-- Python substring containment `needle in hay`. -/
def occursIn (needle hay : String) : Bool :=
  decide (needle.toList <:+: hay.toList)

/-- `str.split(", ")`: split on non-overlapping occurrences of the
two-character separator, left to right.  Always returns a non-empty list. -/
def splitCommaSpace : List Char → List (List Char)
  | [] => [[]]
  | [c] => [[c]]
  | c1 :: c2 :: rest =>
    if c1 = ',' ∧ c2 = ' ' then
      [] :: splitCommaSpace rest
    else
      match splitCommaSpace (c2 :: rest) with
      | [] => [[c1]]
      | hd :: tl => (c1 :: hd) :: tl

/-- `str.split(", ")` on strings. -/
def pySplit (s : String) : List String :=
  (splitCommaSpace s.toList).map String.mk

/-! ### `config.py` -/

def DEFAULT_RISK_FLAG : String := "Normal"

def DEFAULT_DOMAIN : String := "Unclassified"

def DEFAULT_SUBDOMAIN : String := "Unclassified"

/-- `config.TRM_DOMAINS_SUBDOMAINS`, an ordered mapping (Python dicts keep
insertion order, which the classifier's first-match rule observes). -/
def TRM_DOMAINS_SUBDOMAINS : List (String × List String) :=
  [("Data Management", ["Database Platforms", "Data Processing", "Data Storage"]),
   ("Artificial Intelligence", ["ML Frameworks", "NLP Tools", "Computer Vision"]),
   ("Security", ["Security Tools", "Authentication", "Encryption"]),
   ("Network", ["Networking Tools", "Load Balancers", "API Gateways"]),
   ("Development", ["IDEs", "Version Control", "CI/CD"]),
   ("Unclassified", ["Unclassified"])]

/-- `config.CLASSIFICATION_KEYWORDS`, ordered as declared. -/
def CLASSIFICATION_KEYWORDS : List (String × List String) :=
  [("Data Management",
    ["database", "sql", "nosql", "data store", "postgresql", "mysql", "mongodb", "redis"]),
   ("Artificial Intelligence",
    ["machine learning", "ai", "ml", "artificial intelligence", "deep learning", "tensorflow", "pytorch"]),
   ("Security",
    ["security", "auth", "encryption", "firewall", "protection", "vulnerability", "antivirus"]),
   ("Network",
    ["network", "protocol", "routing", "traffic", "proxy", "load balancer", "api gateway"]),
   ("Development",
    ["ide", "git", "development", "programming", "code", "compiler", "build", "cicd"])]

/-- Python `domain in TRM_DOMAINS_SUBDOMAINS` / `TRM_DOMAINS_SUBDOMAINS[domain]`
as one total lookup over the ordered mapping. -/
def lookupDomain (d : String) : Option (List String) :=
  (TRM_DOMAINS_SUBDOMAINS.find? (fun p => p.1 == d)).map (fun p => p.2)

/-- `TRM_DOMAINS_SUBDOMAINS[domain][0]`.  The `getD`/`headD` defaults model
Python's raising indexing totally; every lookup the source executes is on a
domain present in the concrete mapping, whose subdomain lists are non-empty. -/
def firstSubdomainOf (d : String) : String :=
  ((lookupDomain d).getD []).headD ""

/-- `Taxonomy.is_valid(domain, subdomain)` (spec §4.1): the domain is a key
of the mapping and the subdomain is a member of its subdomain list. -/
def is_valid (d s : String) : Bool :=
  match lookupDomain d with
  | some subs => subs.contains s
  | none => false

/-! ### `risk_assessment.py` -/

/-- The pandas row seen by `flag_risk`.  For each column read by the source:
`none` models the column being absent from the row (the `'X' in row` guard
fails), `some none` a null/NaN cell, `some (some s)` a string cell.
`Lifecycle Status` cells are strings when present: the spec (§6) makes
normalization of that column an external precondition, and a NaN there would
crash the source's `.lower()` call. -/
structure RiskRow where
  lifecycleStatus : Option String
  vendor : Option (Option String)
  trmDomain : Option (Option String)
deriving DecidableEq

/-- `'Lifecycle Status' in row and row['Lifecycle Status'].lower() == v`. -/
def lifecycleEquals (row : RiskRow) (v : String) : Bool :=
  match row.lifecycleStatus with
  | some s => pyLower s == v
  | none => false

/-- `'Vendor' in row and (pd.isnull(row['Vendor']) or row['Vendor'].strip() == '')`. -/
def vendorMissing (row : RiskRow) : Bool :=
  match row.vendor with
  | none => false
  | some none => true
  | some (some v) => pyStrip v == ""

/-- `'TRM Domain' in row and row['TRM Domain'] == config.DEFAULT_DOMAIN`
(a NaN cell compares unequal to a string in pandas). -/
def domainIsSentinel (row : RiskRow) : Bool :=
  match row.trmDomain with
  | some (some d) => d == DEFAULT_DOMAIN
  | _ => false

/-- `risk_assessment.flag_risk`. -/
def flag_risk (row : RiskRow) : String :=
  if lifecycleEquals row "deprecated" then "High-Risk"
  else if vendorMissing row then "High-Risk"
  else if domainIsSentinel row then "High-Risk"
  else if lifecycleEquals row "beta" then "Medium-Risk"
  else DEFAULT_RISK_FLAG

/-- The missing-vendor predicate as claim C1/C9 word it (spec §4.5 rule 2):
vendor absent, null, or empty after trimming. -/
def claimVendorMissing (v : Option (Option String)) : Bool :=
  match v with
  | none => true
  | some none => true
  | some (some s) => pyStrip s == ""

/-- Round-half-to-even on an exact rational (the semantics of Python's
`round` at the values this application produces, modelled over `ℚ`
instead of binary floating point). -/
def roundHalfEven (q : ℚ) : ℤ :=
  let f : ℤ := ⌊q⌋
  let frac : ℚ := q - (f : ℚ)
  if frac < 1/2 then f
  else if 1/2 < frac then f + 1
  else if f % 2 = 0 then f else f + 1

/-- Python `round(x, 1)` over exact rationals. -/
def roundTo1 (q : ℚ) : ℚ :=
  (roundHalfEven (q * 10) : ℚ) / 10

/-- A row of the dataframe handed to `generate_risk_metrics`, carrying the
four columns it reads (the pipeline has added all of them by this point, so
the source's `if 'X' in df.columns` guards are in their all-columns-present
branch); the vendor cell may be null (`none`). -/
structure MRow where
  riskFlag : String
  lifecycleStatus : String
  vendor : Option String
  trmDomain : String
deriving DecidableEq

/-- The metrics dictionary returned by `generate_risk_metrics`.  `counts`
and `percentages` model the Python dicts as total functions: a risk level
that never occurs is not a key of the dict, modelled as value `0`. -/
structure RiskMetrics where
  counts : String → Nat
  percentages : String → ℚ
  deprecated_count : Nat
  missing_vendor_count : Nat
  unclassified_count : Nat
  total : Nat

/-- `risk_assessment.generate_risk_metrics`. -/
def generate_risk_metrics (df : List MRow) : RiskMetrics :=
  let counts : String → Nat := fun level => (df.filter (fun r => r.riskFlag == level)).length
  let total := df.length
  { counts := counts
    percentages := fun level =>
      if counts level = 0 then 0
      else roundTo1 ((counts level : ℚ) / (total : ℚ) * 100)
    deprecated_count := (df.filter (fun r => r.lifecycleStatus == "Deprecated")).length
    missing_vendor_count := (df.filter (fun r => r.vendor.isNone || r.vendor == some "")).length
    unclassified_count := (df.filter (fun r => r.trmDomain == DEFAULT_DOMAIN)).length
    total := total }

/-! ### `classification.py` -/

/-- `classification.rule_based_classify`: lowercase description and hint,
join them with one space (`f"{...} {...}"`), and scan the keyword mapping in
declared order for the first domain one of whose keywords occurs as a
substring; answer that domain with its first declared subdomain, or the
sentinel pair when nothing matches. -/
def rule_based_classify (description hint : String) : String × String :=
  let desc_hint := pyLower description ++ " " ++ pyLower hint
  match CLASSIFICATION_KEYWORDS.find? (fun p => p.2.any (fun kw => occursIn kw desc_hint)) with
  | some p => (p.1, firstSubdomainOf p.1)
  | none => (DEFAULT_DOMAIN, DEFAULT_SUBDOMAIN)

/-- Outcome of the external OpenAI interaction inside `llm_classify`:
`noKey` models a falsy `config.OPENAI_API_KEY`, `failure` any exception
raised by the service call, and `response s` a completed call whose
message content is `s`. -/
inductive LLMOutcome where
  | noKey : LLMOutcome
  | failure : LLMOutcome
  | response : String → LLMOutcome

/-- The validation block of `llm_classify` on the two stripped halves of a
successfully split response: keep a fully valid pair; repair the subdomain
of a known domain to that domain's first subdomain; otherwise the sentinel. -/
def validatePair (d1 s1 : String) : String × String :=
  match lookupDomain d1 with
  | some subs => bif subs.contains s1 then (d1, s1) else (d1, subs.headD "")
  | none => (DEFAULT_DOMAIN, DEFAULT_SUBDOMAIN)

/-- `classification.llm_classify`.  The `product_name` argument only feeds
the prompt shown to the external service, whose behavior is the `outcome`
argument; a split yielding anything but two parts is the `ValueError` path
of the source's tuple unpacking. -/
def llm_classify (product_name description hint : String) (outcome : LLMOutcome) :
    String × String :=
  match outcome with
  | .noKey => rule_based_classify description hint
  | .failure => rule_based_classify description hint
  | .response r =>
    if pyLower r == "unclassified" then (DEFAULT_DOMAIN, DEFAULT_SUBDOMAIN)
    else
      match pySplit r with
      | [d0, s0] => validatePair (pyStrip d0) (pyStrip s0)
      | _ => (DEFAULT_DOMAIN, DEFAULT_SUBDOMAIN)

/-- A row of the dataframe handed to `run_classification`: the columns the
loop reads, the two columns it writes (`none` before classification), and
the remaining columns of the row, which it never touches, as an opaque
association list. -/
structure CRow where
  productName : String
  description : String
  categoryHint : Option String
  trmDomain : Option String
  trmSubdomain : Option String
  otherFields : List (String × String)
deriving DecidableEq

/-- One iteration of the `run_classification` loop body on its row. -/
def classifyRow (method : String) (outcome : LLMOutcome) (row : CRow) : CRow :=
  let hint := row.categoryHint.getD ""
  let ds :=
    if method == "rule-based" then rule_based_classify row.description hint
    else llm_classify row.productName row.description hint outcome
  { row with trmDomain := some ds.1, trmSubdomain := some ds.2 }

/-- The `run_classification` loop over the copied dataframe; `oracle i` is
the external-service outcome observed while classifying row `i`. -/
def runClassAux (method : String) (oracle : Nat → LLMOutcome) (i : Nat) :
    List CRow → List CRow
  | [] => []
  | row :: rest => classifyRow method (oracle i) row :: runClassAux method oracle (i + 1) rest

/-- `classification.run_classification`: copy the dataframe and write each
row's classification into its `TRM Domain` / `TRM Subdomain` cells. -/
def run_classification (df : List CRow) (method : String) (oracle : Nat → LLMOutcome) :
    List CRow :=
  runClassAux method oracle 0 df

/-- Everything of a row except its two classification cells; two rows with
the same `frameOf` agree on all columns `run_classification` may not write. -/
def frameOf (row : CRow) : CRow :=
  { row with trmDomain := none, trmSubdomain := none }

/-! ### Spec-side definitions (for refinement comparisons) -/

/-- `keywords_of(domain)` of the spec's Taxonomy (§4.1): the keyword set of
a domain, empty for domains without keyword entries (the sentinel). -/
def keywordsOf (d : String) : List String :=
  ((CLASSIFICATION_KEYWORDS.find? (fun p => p.1 == d)).map (fun p => p.2)).getD []

/-- The rule classifier exactly as claim C3 words it: lowercase the plain
concatenation of description and hint, walk the Taxonomy's domains in
declared order, return the first domain with a keyword occurring in the
text together with its first declared subdomain, else the sentinel pair. -/
def claim_rule_classify (description hint : String) : String × String :=
  let text := pyLower (description ++ hint)
  match (TRM_DOMAINS_SUBDOMAINS.map (fun p => p.1)).find?
      (fun d => (keywordsOf d).any (fun kw => occursIn kw text)) with
  | some d => (d, firstSubdomainOf d)
  | none => (DEFAULT_DOMAIN, DEFAULT_SUBDOMAIN)

/-- Claim C3 amended: the same walk, but over the text the source actually
builds — the lowercased description and hint joined by a single space. -/
def claim_rule_classify_spaced (description hint : String) : String × String :=
  let text := pyLower description ++ " " ++ pyLower hint
  match (TRM_DOMAINS_SUBDOMAINS.map (fun p => p.1)).find?
      (fun d => (keywordsOf d).any (fun kw => occursIn kw text)) with
  | some d => (d, firstSubdomainOf d)
  | none => (DEFAULT_DOMAIN, DEFAULT_SUBDOMAIN)

/-! ### Helper lemmas -/

theorem mk_toList (s : String) : String.mk s.toList = s := rfl

theorem mem_dropWhile_of_mem {p : Char → Bool} {c : Char} {l : List Char}
    (hc : c ∈ l) (hp : p c = false) : c ∈ l.dropWhile p := by
  induction l with
  | nil => cases hc
  | cons a l ih =>
    rw [List.dropWhile]
    cases hpa : p a with
    | true =>
      rcases List.mem_cons.mp hc with h | h
      · exact absurd (h ▸ hp) (by simp [hpa])
      · simpa using ih h
    | false => simpa using hc

theorem mem_stripList {c : Char} {l : List Char}
    (hc : c ∈ l) (hp : pyIsSpace c = false) : c ∈ stripList l := by
  unfold stripList
  rw [List.mem_reverse]
  exact mem_dropWhile_of_mem (List.mem_reverse.mpr (mem_dropWhile_of_mem hc hp)) hp

theorem splitCommaSpace_bounded : ∀ (n : Nat) (l : List Char),
    l.length ≤ n → ',' ∉ l → splitCommaSpace l = [l] := by
  intro n
  induction n with
  | zero =>
    intro l hl _
    rw [List.length_eq_zero.mp (Nat.le_zero.mp hl)]
    rfl
  | succ n ih =>
    intro l hl hc
    match l with
    | [] => rfl
    | [c] => rfl
    | c1 :: c2 :: rest =>
      have hstep : splitCommaSpace (c1 :: c2 :: rest) =
          if c1 = ',' ∧ c2 = ' ' then [] :: splitCommaSpace rest
          else match splitCommaSpace (c2 :: rest) with
            | [] => [[c1]]
            | hd :: tl => (c1 :: hd) :: tl := rfl
      have hc1 : ¬(c1 = ',' ∧ c2 = ' ') := by
        rintro ⟨h1, -⟩
        exact hc (h1 ▸ List.mem_cons_self c1 (c2 :: rest))
      have htail : splitCommaSpace (c2 :: rest) = [c2 :: rest] :=
        ih (c2 :: rest) (by simpa using Nat.le_of_succ_le_succ hl)
          (fun h => hc (List.mem_cons_of_mem c1 h))
      rw [hstep, if_neg hc1, htail]

theorem splitCommaSpace_of_no_comma {l : List Char} (hc : ',' ∉ l) :
    splitCommaSpace l = [l] :=
  splitCommaSpace_bounded l.length l le_rfl hc

theorem pySplit_of_no_comma {s : String} (hc : ',' ∉ s.toList) : pySplit s = [s] := by
  unfold pySplit
  rw [splitCommaSpace_of_no_comma hc]
  simp [mk_toList]

theorem comma_mem_of_pySplit_pair {s a b : String} (h : pySplit s = [a, b]) :
    ',' ∈ s.toList := by
  by_contra hc
  rw [pySplit_of_no_comma hc] at h
  exact absurd (congrArg List.length h) (by simp)

theorem comma_not_mem_of_ci_sentinel {r : String}
    (h : pyLower (pyStrip r) = "unclassified") : ',' ∉ r.toList := by
  intro hc
  have h1 : ',' ∈ stripList r.toList := mem_stripList hc (by decide)
  have h2 : ',' ∈ (stripList r.toList).map Char.toLower :=
    List.mem_map.mpr ⟨',', h1, by decide⟩
  have h3 : (stripList r.toList).map Char.toLower = "unclassified".toList :=
    congrArg String.toList h
  rw [h3] at h2
  exact absurd h2 (by decide)

theorem pyLower_ne_sentinel_of_comma {r : String} (hc : ',' ∈ r.toList) :
    (pyLower r == "unclassified") = false := by
  rw [beq_eq_false_iff_ne]
  intro h
  have h2 : ',' ∈ r.toList.map Char.toLower := List.mem_map.mpr ⟨',', hc, by decide⟩
  have h3 : r.toList.map Char.toLower = "unclassified".toList := congrArg String.toList h
  rw [h3] at h2
  exact absurd h2 (by decide)

theorem lookupDomain_first_mem {d : String} {subs : List String}
    (h : lookupDomain d = some subs) : subs.contains (subs.headD "") = true := by
  unfold lookupDomain at h
  cases hf : TRM_DOMAINS_SUBDOMAINS.find? (fun p => p.1 == d) with
  | none => rw [hf] at h; cases h
  | some p =>
    rw [hf] at h
    have hm : p ∈ TRM_DOMAINS_SUBDOMAINS := List.mem_of_find?_eq_some hf
    have hsubs : subs = p.2 := by
      have := Option.map_eq_some'.mp h
      rcases this with ⟨q, hq, hq2⟩
      cases hq
      exact hq2.symm
    rw [hsubs]
    fin_cases hm <;> decide

theorem validatePair_valid (d1 s1 : String) :
    is_valid (validatePair d1 s1).1 (validatePair d1 s1).2 = true := by
  unfold validatePair
  cases hl : lookupDomain d1 with
  | none => exact (by decide : is_valid DEFAULT_DOMAIN DEFAULT_SUBDOMAIN = true)
  | some subs =>
    show is_valid (bif subs.contains s1 then (d1, s1) else (d1, subs.headD "")).1
        (bif subs.contains s1 then (d1, s1) else (d1, subs.headD "")).2 = true
    cases hc : subs.contains s1 with
    | true =>
      simp only [Bool.cond_true, is_valid, hl]
      exact hc
    | false =>
      simp only [Bool.cond_false, is_valid, hl]
      exact lookupDomain_first_mem hl

theorem rule_based_classify_valid (description hint : String) :
    is_valid (rule_based_classify description hint).1
      (rule_based_classify description hint).2 = true := by
  simp only [rule_based_classify]
  cases hf : CLASSIFICATION_KEYWORDS.find?
      (fun p => p.2.any (fun kw => occursIn kw (pyLower description ++ " " ++ pyLower hint))) with
  | none => exact (by decide : is_valid DEFAULT_DOMAIN DEFAULT_SUBDOMAIN = true)
  | some p =>
    have hm : p ∈ CLASSIFICATION_KEYWORDS := List.mem_of_find?_eq_some hf
    fin_cases hm <;> exact (by decide)

theorem find_names_eq (t : String) :
    (TRM_DOMAINS_SUBDOMAINS.map (fun p => p.1)).find?
      (fun d => (keywordsOf d).any (fun kw => occursIn kw t)) =
    (CLASSIFICATION_KEYWORDS.find? (fun p => p.2.any (fun kw => occursIn kw t))).map
      (fun p => p.1) := by
  have k1 : keywordsOf "Data Management" =
      ["database", "sql", "nosql", "data store", "postgresql", "mysql", "mongodb", "redis"] := rfl
  have k2 : keywordsOf "Artificial Intelligence" =
      ["machine learning", "ai", "ml", "artificial intelligence", "deep learning", "tensorflow", "pytorch"] := rfl
  have k3 : keywordsOf "Security" =
      ["security", "auth", "encryption", "firewall", "protection", "vulnerability", "antivirus"] := rfl
  have k4 : keywordsOf "Network" =
      ["network", "protocol", "routing", "traffic", "proxy", "load balancer", "api gateway"] := rfl
  have k5 : keywordsOf "Development" =
      ["ide", "git", "development", "programming", "code", "compiler", "build", "cicd"] := rfl
  have k6 : keywordsOf "Unclassified" = [] := rfl
  simp only [TRM_DOMAINS_SUBDOMAINS, CLASSIFICATION_KEYWORDS, List.map, List.find?,
    k1, k2, k3, k4, k5, k6]
  repeat' split <;> simp_all

/-! ### Claim theorems -/

/-- C2: for every record and both strategies the classifier returns a
(domain, subdomain) pair that is valid per the Taxonomy — every exit path
of `rule_based_classify` and of `llm_classify` (any credential state,
failure, or response) yields a domain of the mapping paired with one of
that domain's declared subdomains. -/
theorem classification_always_taxonomy_valid (pn desc hint : String) (outcome : LLMOutcome) :
    is_valid (rule_based_classify desc hint).1 (rule_based_classify desc hint).2 = true ∧
    is_valid (llm_classify pn desc hint outcome).1
      (llm_classify pn desc hint outcome).2 = true := by
  refine ⟨rule_based_classify_valid desc hint, ?_⟩
  cases outcome with
  | noKey => exact rule_based_classify_valid desc hint
  | failure => exact rule_based_classify_valid desc hint
  | response r =>
    cases hLow : (pyLower r == "unclassified") with
    | true =>
      simp only [llm_classify, hLow, if_true]
      exact (by decide : is_valid DEFAULT_DOMAIN DEFAULT_SUBDOMAIN = true)
    | false =>
      cases hsp : pySplit r with
      | nil =>
        simp only [llm_classify, hLow, Bool.false_eq_true, if_false, hsp]
        exact (by decide : is_valid DEFAULT_DOMAIN DEFAULT_SUBDOMAIN = true)
      | cons a tl =>
        cases tl with
        | nil =>
          simp only [llm_classify, hLow, Bool.false_eq_true, if_false, hsp]
          exact (by decide : is_valid DEFAULT_DOMAIN DEFAULT_SUBDOMAIN = true)
        | cons b tl2 =>
          cases tl2 with
          | nil =>
            simp only [llm_classify, hLow, Bool.false_eq_true, if_false, hsp]
            exact validatePair_valid (pyStrip a) (pyStrip b)
          | cons c tl3 =>
            simp only [llm_classify, hLow, Bool.false_eq_true, if_false, hsp]
            exact (by decide : is_valid DEFAULT_DOMAIN DEFAULT_SUBDOMAIN = true)

/-- C3 counterexample: the claim's "lowercases the concatenation of
description and hint" disagrees with the code, which joins the two
lowercased parts with a single space.  With description `"data"` and hint
`"base"` the claim's text is `"database"` (a Data Management keyword) while
the code's text is `"data base"`, which matches no keyword. -/
theorem rule_classify_concat_counterexample :
    rule_based_classify "data" "base" ≠ claim_rule_classify "data" "base" ∧
    rule_based_classify "data" "base" = ("Unclassified", "Unclassified") ∧
    claim_rule_classify "data" "base" = ("Data Management", "Database Platforms") := by
  refine ⟨?_, by decide, by decide⟩
  decide

/-- C3 amended: for every description and hint, `rule_based_classify`
lowercases description and hint and joins them with a single space, then
walks the Taxonomy's domains in declared order and returns the first domain
one of whose keywords occurs as a substring of that text paired with that
domain's first declared subdomain, or (Unclassified, Unclassified) when no
domain's keywords match; it never fails (it is a total Lean function). -/
theorem rule_classify_matches_spec_walk (description hint : String) :
    rule_based_classify description hint = claim_rule_classify_spaced description hint := by
  simp only [rule_based_classify, claim_rule_classify_spaced]
  rw [find_names_eq]
  cases hf : CLASSIFICATION_KEYWORDS.find?
      (fun p => p.2.any (fun kw => occursIn kw (pyLower description ++ " " ++ pyLower hint))) with
  | none => rfl
  | some p => rfl

/-- C4: with no model-service credential, and on any failure of the
external call, `llm_classify` returns exactly the result of
`rule_based_classify` on the same description and hint; the failure is not
propagated (the embedding is total). -/
theorem llm_degraded_modes_delegate (pn desc hint : String) :
    llm_classify pn desc hint .noKey = rule_based_classify desc hint ∧
    llm_classify pn desc hint .failure = rule_based_classify desc hint :=
  ⟨rfl, rfl⟩

/-- C5: a response that splits on `", "` into a known domain and a
subdomain not declared under it yields that domain paired with the domain's
first declared subdomain — the domain is kept, the subdomain repaired. -/
theorem llm_subdomain_repair (pn desc hint r d0 s0 : String) (subs : List String)
    (hsplit : pySplit r = [d0, s0])
    (hdom : lookupDomain (pyStrip d0) = some subs)
    (hsub : subs.contains (pyStrip s0) = false) :
    llm_classify pn desc hint (.response r) = (pyStrip d0, subs.headD "") := by
  have hLow := pyLower_ne_sentinel_of_comma (comma_mem_of_pySplit_pair hsplit)
  simp only [llm_classify, hLow, Bool.false_eq_true, if_false, hsplit, validatePair, hdom,
    hsub, Bool.cond_false]

/-- C5 witness: response `"Security, Firewalling"` names the known domain
Security with an undeclared subdomain, and is repaired to Security's first
declared subdomain `"Security Tools"`. -/
theorem llm_subdomain_repair_witness :
    pySplit "Security, Firewalling" = ["Security", "Firewalling"] ∧
    lookupDomain "Security" = some ["Security Tools", "Authentication", "Encryption"] ∧
    llm_classify "Zed" "desc" "hint" (.response "Security, Firewalling") =
      ("Security", "Security Tools") := by
  refine ⟨by decide, by decide, ?_⟩
  have h := llm_subdomain_repair "Zed" "desc" "hint" "Security, Firewalling" "Security"
    "Firewalling" ["Security Tools", "Authentication", "Encryption"]
    (by decide) (by decide) (by decide)
  exact h.trans (by decide)

/-- C6: a response whose trimmed text case-insensitively equals the
sentinel token, a response whose split on `", "` does not have exactly two
parts, and a two-part response whose trimmed domain is unknown to the
Taxonomy all make `llm_classify` return the sentinel pair, without error. -/
theorem llm_shape_violations_yield_sentinel (pn desc hint r : String) :
    (pyLower (pyStrip r) = "unclassified" →
      llm_classify pn desc hint (.response r) = (DEFAULT_DOMAIN, DEFAULT_SUBDOMAIN)) ∧
    ((pySplit r).length ≠ 2 →
      llm_classify pn desc hint (.response r) = (DEFAULT_DOMAIN, DEFAULT_SUBDOMAIN)) ∧
    (∀ a b, pySplit r = [a, b] → lookupDomain (pyStrip a) = none →
      llm_classify pn desc hint (.response r) = (DEFAULT_DOMAIN, DEFAULT_SUBDOMAIN)) := by
  refine ⟨?_, ?_, ?_⟩
  · intro hs
    cases hLow : (pyLower r == "unclassified") with
    | true => simp only [llm_classify, hLow, if_true]
    | false =>
      have hsp : pySplit r = [r] :=
        pySplit_of_no_comma (comma_not_mem_of_ci_sentinel hs)
      simp only [llm_classify, hLow, Bool.false_eq_true, if_false, hsp]
  · intro hlen
    cases hLow : (pyLower r == "unclassified") with
    | true => simp only [llm_classify, hLow, if_true]
    | false =>
      cases hsp : pySplit r with
      | nil => simp only [llm_classify, hLow, Bool.false_eq_true, if_false, hsp]
      | cons a tl =>
        cases tl with
        | nil => simp only [llm_classify, hLow, Bool.false_eq_true, if_false, hsp]
        | cons b tl2 =>
          cases tl2 with
          | nil => exact absurd (by rw [hsp]; rfl) hlen
          | cons c tl3 => simp only [llm_classify, hLow, Bool.false_eq_true, if_false, hsp]
  · intro a b hsp hlk
    have hLow := pyLower_ne_sentinel_of_comma (comma_mem_of_pySplit_pair hsp)
    simp only [llm_classify, hLow, Bool.false_eq_true, if_false, hsp, validatePair, hlk]

/-- C6 witness: the three fallbacks at concrete responses — a padded
sentinel token, a splitless response, and a two-part response with an
unknown domain — each produce the sentinel pair. -/
theorem llm_shape_violations_witness :
    (pyLower (pyStrip " UNCLASSIFIED ") = "unclassified" ∧
      llm_classify "P" "D" "H" (.response " UNCLASSIFIED ") =
        (DEFAULT_DOMAIN, DEFAULT_SUBDOMAIN)) ∧
    ((pySplit "SecurityTools").length ≠ 2 ∧
      llm_classify "P" "D" "H" (.response "SecurityTools") =
        (DEFAULT_DOMAIN, DEFAULT_SUBDOMAIN)) ∧
    (pySplit "Gibberish, Stuff" = ["Gibberish", "Stuff"] ∧
      lookupDomain (pyStrip "Gibberish") = none ∧
      llm_classify "P" "D" "H" (.response "Gibberish, Stuff") =
        (DEFAULT_DOMAIN, DEFAULT_SUBDOMAIN)) :=
  ⟨⟨by decide, (llm_shape_violations_yield_sentinel "P" "D" "H" " UNCLASSIFIED ").1 (by decide)⟩,
   ⟨by decide, (llm_shape_violations_yield_sentinel "P" "D" "H" "SecurityTools").2.1 (by decide)⟩,
   ⟨by decide, by decide,
    (llm_shape_violations_yield_sentinel "P" "D" "H" "Gibberish, Stuff").2.2
      "Gibberish" "Stuff" (by decide) (by decide)⟩⟩

/-- The missing-vendor predicate claim C9 asserts for the metrics
sub-count: vendor null or empty after trimming (risk rule 2's predicate,
stated on a metrics row's vendor cell). -/
def claimMissingVendorCell (v : Option String) : Bool :=
  match v with
  | none => true
  | some s => pyStrip s == ""

/-- `roundTo1` of zero is zero (needed where a risk level has count 0). -/
theorem roundTo1_zero : roundTo1 0 = 0 := by
  simp [roundTo1, roundHalfEven]

/-- C1 counterexample: the claim makes an absent vendor field High-Risk
(rule 2), but the source's `'Vendor' in row` guard skips rule 2 for a row
without that field: with lifecycle "Active", no vendor field, and domain
"Network", the code returns "Normal" where the claim requires "High-Risk". -/
theorem flag_risk_absent_vendor_counterexample :
    claimVendorMissing (⟨some "Active", none, some (some "Network")⟩ : RiskRow).vendor = true ∧
    lifecycleEquals ⟨some "Active", none, some (some "Network")⟩ "deprecated" = false ∧
    flag_risk ⟨some "Active", none, some (some "Network")⟩ ≠ "High-Risk" ∧
    flag_risk ⟨some "Active", none, some (some "Network")⟩ = "Normal" := by
  decide

/-- C1 amended: `flag_risk` evaluates its rules first-match-wins in the
claimed order, except that rule 2 fires only when the vendor field is
present and null or present and empty after trimming — a record without
the vendor field does not trigger rule 2.  The function is total with
range {High-Risk, Medium-Risk, Normal}. -/
theorem flag_risk_precedence (row : RiskRow) :
    (lifecycleEquals row "deprecated" = true → flag_risk row = "High-Risk") ∧
    (lifecycleEquals row "deprecated" = false → vendorMissing row = true →
      flag_risk row = "High-Risk") ∧
    (lifecycleEquals row "deprecated" = false → vendorMissing row = false →
      domainIsSentinel row = true → flag_risk row = "High-Risk") ∧
    (lifecycleEquals row "deprecated" = false → vendorMissing row = false →
      domainIsSentinel row = false → lifecycleEquals row "beta" = true →
      flag_risk row = "Medium-Risk") ∧
    (lifecycleEquals row "deprecated" = false → vendorMissing row = false →
      domainIsSentinel row = false → lifecycleEquals row "beta" = false →
      flag_risk row = "Normal") ∧
    (flag_risk row = "High-Risk" ∨ flag_risk row = "Medium-Risk" ∨
      flag_risk row = "Normal") := by
  refine ⟨fun h1 => ?_, fun h1 h2 => ?_, fun h1 h2 h3 => ?_,
    fun h1 h2 h3 h4 => ?_, fun h1 h2 h3 h4 => ?_, ?_⟩
  · simp [flag_risk, *]
  · simp [flag_risk, *]
  · simp [flag_risk, *]
  · simp [flag_risk, *]
  · simp [flag_risk, DEFAULT_RISK_FLAG, *]
  · by_cases h1 : lifecycleEquals row "deprecated" = true
    · simp [flag_risk, h1]
    · by_cases h2 : vendorMissing row = true
      · simp [flag_risk, h1, h2]
      · by_cases h3 : domainIsSentinel row = true
        · simp [flag_risk, h1, h2, h3]
        · by_cases h4 : lifecycleEquals row "beta" = true
          · simp [flag_risk, DEFAULT_RISK_FLAG, h1, h2, h3, h4]
          · simp [flag_risk, DEFAULT_RISK_FLAG, h1, h2, h3, h4]

/-- C1 witness: the claim's own instance — lifecycle "Deprecated" with a
null vendor is High-Risk by rule 1. -/
theorem flag_risk_precedence_witness :
    lifecycleEquals ⟨some "Deprecated", some none, some (some "Network")⟩ "deprecated" = true ∧
    flag_risk ⟨some "Deprecated", some none, some (some "Network")⟩ = "High-Risk" :=
  ⟨by decide, (flag_risk_precedence ⟨some "Deprecated", some none, some (some "Network")⟩).1
    (by decide)⟩

/-- C7: the aggregate metrics return `total` equal to the record count, the
per-level count of records carrying that risk flag, and the percentage
count/total·100 rounded (half-even) to one decimal place; on the empty
record set everything is zero and nothing fails (no division happens). -/
theorem risk_metrics_aggregate (rows : List MRow) (level : String) :
    (generate_risk_metrics rows).total = rows.length ∧
    (generate_risk_metrics rows).counts level =
      (rows.filter (fun r => r.riskFlag == level)).length ∧
    (generate_risk_metrics rows).percentages level =
      roundTo1 (((rows.filter (fun r => r.riskFlag == level)).length : ℚ) /
        (rows.length : ℚ) * 100) ∧
    (generate_risk_metrics ([] : List MRow)).total = 0 ∧
    (generate_risk_metrics ([] : List MRow)).counts level = 0 ∧
    (generate_risk_metrics ([] : List MRow)).percentages level = 0 ∧
    (generate_risk_metrics ([] : List MRow)).deprecated_count = 0 ∧
    (generate_risk_metrics ([] : List MRow)).missing_vendor_count = 0 ∧
    (generate_risk_metrics ([] : List MRow)).unclassified_count = 0 := by
  refine ⟨rfl, rfl, ?_, rfl, rfl, rfl, rfl, rfl, rfl⟩
  by_cases hc : (rows.filter (fun r => r.riskFlag == level)).length = 0
  · simp only [generate_risk_metrics]
    simp [hc, roundTo1_zero]
  · simp only [generate_risk_metrics]
    simp [hc]

/-- C8 counterexample: a record never classified (domain field absent, or
null), not deprecated, with vendor "Acme", is given "Normal" by the code —
not the "High-Risk" the claim asserts: an un-classified-at-all record is
not treated like one carrying the sentinel domain. -/
theorem flag_risk_unannotated_counterexample :
    flag_risk ⟨some "Active", some (some "Acme"), none⟩ ≠ "High-Risk" ∧
    flag_risk ⟨some "Active", some (some "Acme"), none⟩ = "Normal" ∧
    flag_risk ⟨some "Active", some (some "Acme"), some none⟩ ≠ "High-Risk" ∧
    flag_risk ⟨some "Active", some (some "Acme"), some none⟩ = "Normal" := by
  decide

/-- C8 amended: for a record whose domain field is entirely absent or null,
not deprecated and with a non-missing vendor, rule 3 does not fire (the
sentinel comparison only matches the literal sentinel string), so the
result is "Medium-Risk" for beta lifecycles and "Normal" otherwise —
never "High-Risk". -/
theorem flag_risk_unannotated_domain (row : RiskRow)
    (hdom : row.trmDomain = none ∨ row.trmDomain = some none)
    (hdep : lifecycleEquals row "deprecated" = false)
    (hven : vendorMissing row = false) :
    flag_risk row = (if lifecycleEquals row "beta" then "Medium-Risk" else "Normal") := by
  have hsent : domainIsSentinel row = false := by
    rcases hdom with h | h <;> simp [domainIsSentinel, h]
  unfold flag_risk
  simp [hdep, hven, hsent, DEFAULT_RISK_FLAG]

/-- C8 witness: the amended statement at the counterexample's record. -/
theorem flag_risk_unannotated_domain_witness :
    (⟨some "Active", some (some "Acme"), none⟩ : RiskRow).trmDomain = none ∧
    flag_risk ⟨some "Active", some (some "Acme"), none⟩ =
      (if lifecycleEquals ⟨some "Active", some (some "Acme"), none⟩ "beta"
        then "Medium-Risk" else "Normal") :=
  ⟨rfl, flag_risk_unannotated_domain ⟨some "Active", some (some "Acme"), none⟩
    (Or.inl rfl) (by decide) (by decide)⟩

/-- C9 counterexample: a whitespace-only vendor cell satisfies the claim's
trimmed missing-vendor predicate but is not counted by the code, whose
`isnull | == ''` test does not trim: the claim's count is 1, the code's 0. -/
theorem missing_vendor_count_counterexample :
    (generate_risk_metrics [⟨"High-Risk", "Active", some " ", "Network"⟩]).missing_vendor_count
      = 0 ∧
    claimMissingVendorCell (some " ") = true ∧
    ([(⟨"High-Risk", "Active", some " ", "Network"⟩ : MRow)].filter
      (fun r => claimMissingVendorCell r.vendor)).length = 1 := by
  decide

/-- C9 amended: `missing_vendor_count` counts exactly the records whose
vendor cell is null or is the empty string without trimming; that count
never exceeds the count under the claim's trimmed predicate (risk rule 2's
test), but a whitespace-only vendor is counted only by the latter. -/
theorem missing_vendor_count_amended (rows : List MRow) :
    (generate_risk_metrics rows).missing_vendor_count =
      (rows.filter (fun r => r.vendor.isNone || r.vendor == some "")).length ∧
    (generate_risk_metrics rows).missing_vendor_count ≤
      (rows.filter (fun r => claimMissingVendorCell r.vendor)).length := by
  refine ⟨rfl, ?_⟩
  have himp : ∀ r : MRow, (r.vendor.isNone || r.vendor == some "") = true →
      claimMissingVendorCell r.vendor = true := by
    intro r hr
    match hv : r.vendor with
    | none => rfl
    | some s =>
      rw [hv] at hr
      simp only [Option.isNone_some, Bool.false_or, beq_iff_eq, Option.some.injEq] at hr
      rw [hr]
      decide
  show (rows.filter (fun r => r.vendor.isNone || r.vendor == some "")).length ≤ _
  exact (List.monotone_filter_right rows himp).length_le

/-- C10: `run_classification` is pure over its input (the embedding of the
source's copy-then-write loop): the output has the same length, and erasing
the two classification cells of every output row gives back the input rows
with every other field and the row order intact — only `TRM Domain` and
`TRM Subdomain` are written. -/
theorem run_classification_frame (rows : List CRow) (method : String)
    (oracle : Nat → LLMOutcome) :
    (run_classification rows method oracle).length = rows.length ∧
    (run_classification rows method oracle).map frameOf = rows.map frameOf := by
  have key : ∀ (i : Nat) (l : List CRow),
      (runClassAux method oracle i l).map frameOf = l.map frameOf ∧
      (runClassAux method oracle i l).length = l.length := by
    intro i l
    induction l generalizing i with
    | nil => exact ⟨rfl, rfl⟩
    | cons row rest ih =>
      refine ⟨?_, ?_⟩
      · simp only [runClassAux, List.map]
        rw [(ih (i + 1)).1]
        rfl
      · simp only [runClassAux, List.length_cons, (ih (i + 1)).2]
  exact ⟨(key 0 rows).2, (key 0 rows).1⟩

end TrmApp
